import Mathlib

/-!
# Verification of the TscanCode string checker (`trunk/lib/checkstring.cpp`)

Shallow embedding of `CheckString` and its seven detectors:
`stringLiteralWrite`, `checkAlwaysTrueOrFalseStringCompare`,
`checkSuspiciousStringCompare`, `strPlusChar`, `strPlusInteger`,
`checkIncorrectStringCompare` and `sprintfOverlappingData`.

Tokens are modelled as a list of `Tok` records carrying the fields the
checker reads (string form, token type, variable facts, resolved numeric
value, `originalName`, and for string literals the unescaped content).
AST expression nodes, used by the two AST-walking detectors, are modelled by
the tree type `ATree`.  Detector scans that in the source advance a cursor
over the doubly linked token list are modelled as structural recursion over
list suffixes; where a scan can jump forward by a data-dependent amount it
takes an explicit step budget (always called with the list length, which
strictly dominates the number of steps) so that every definition is a
computable structural recursion.

External collaborators (tokenizer, symbol database, value flow, settings)
are modelled by the fields of `Tok`/`Var`/`Settings`, exactly as the checker
consumes them.
-/

set_option autoImplicit false
set_option maxRecDepth 8192

namespace CheckString

/-- Token kinds distinguished by the checker (`Token::Type` in the source;
only the constructors the checker inspects, all others collapse to
`eOther`). -/
inductive TokType where
  | eName
  | eVariable
  | eString
  | eChar
  | eNumber
  | eComparisonOp
  | eOther
  deriving DecidableEq, Repr

/-- Variable facts supplied by the symbol database (`Variable` in the
source): pointer-ness, array-ness, and the declared type's start token
(its string form and `originalName`). -/
structure Var where
  isPointer : Bool
  isArray : Bool
  typeStartStr : String
  typeStartOriginalName : String
  deriving DecidableEq, Repr

/-- `Variable::isArrayOrPointer`. -/
def Var.isArrayOrPointer (v : Var) : Bool := v.isArray || v.isPointer

/-- One token of the external token graph, with the annotations the checker
reads.  `varId` is 0 when the token is not a resolved variable (as in the
source, where `%var%` patterns test `varId() != 0`).  `strValue` is the
unescaped content of a string literal (`Token::strValue`, whose length is
`Token::getStrLength`).  `numValue` is the resolved numeric value of a
number literal's text (`MathLib::toLongNumber` of its string).
`valueMinStrSize` models `Token::getValueTokenMinStrSize()`: the content of
the string literal the variable's value is known to trace back to, if any
(a value-flow fact supplied externally). -/
structure Tok where
  str : String
  tokType : TokType := TokType.eOther
  originalName : String := ""
  strValue : String := ""
  numValue : Int := 0
  varId : Nat := 0
  varInfo : Option Var := none
  valueMinStrSize : Option String := none
  deriving DecidableEq, Repr

/-- `Token::isName` (name-like token kinds; of the kinds the checker
distinguishes these are identifiers and resolved variables). -/
def Tok.isName (t : Tok) : Bool :=
  match t.tokType with
  | TokType.eName => true
  | TokType.eVariable => true
  | _ => false

/-- Diagnostic severity (`Severity::error` / `Severity::warning`). -/
inductive Severity where
  | error
  | warning
  deriving DecidableEq, Repr

/-- One produced diagnostic: severity, the stable rule identifier and the
formatted human-readable message. -/
structure Finding where
  severity : Severity
  ruleId : String
  message : String
  deriving DecidableEq, Repr

/-- The one settings fact the checker consumes:
`_settings->isEnabled("warning")`. -/
structure Settings where
  warningEnabled : Bool
  deriving DecidableEq, Repr

/-! ## String helpers -/

/-- First `n` characters of a string (`std::string::substr(0, n)`). -/
def takeChars (s : String) (n : Nat) : String := String.mk (s.data.take n)

/-- Index of the first occurrence of `needle` in a character list
(`std::string::find`). -/
def strFindAux (needle : List Char) : List Char → Nat → Option Nat
  | [], i => if needle.isEmpty then some i else none
  | c :: r, i =>
    if needle.isPrefixOf (c :: r) then some i else strFindAux needle r (i + 1)

/-- `std::string::find`: byte index of the first occurrence of `needle` in
`hay` (character index here; the checker only searches ASCII names). -/
def strFind (hay needle : String) : Option Nat :=
  strFindAux needle.data hay.data 0

/-- The literal-display truncation used by `stringLiteralWriteError`:
`if (s.size() > 15U) s = s.substr(0,13) + ".."`. -/
def slwTrunc (s : String) : String :=
  if s.length > 15 then takeChars s 13 ++ ".." else s

/-- The literal-display truncation used by
`alwaysTrueFalseStringCompareError` with `stringLen = 10`:
`(str.size() < stringLen) ? str : (str.substr(0, stringLen-2) + "..")`. -/
def atfsTrunc (s : String) : String :=
  if s.length < 10 then s else takeChars s 8 ++ ".."

/-! ## Diagnostic formatting (the `...Error` member functions) -/

/-- `CheckString::stringLiteralWriteError` (the string-literal value token
is always present on the call paths in `stringLiteralWrite`, which checks
`getValueTokenMinStrSize` first; `s` is its `strValue`). -/
def stringLiteralWriteError (s : String) : Finding :=
  { severity := Severity.error
    ruleId := "stringLiteralWrite"
    message := "Modifying string literal \"" ++ slwTrunc s ++
      "\" directly or indirectly is undefined behaviour." }

/-- The message of `alwaysTrueFalseStringCompareError`, with the
identical/unequal verdict word passed explicitly. -/
def atfsMessage (string1 string2 verdict : String) : String :=
  "Unnecessary comparison of static strings.\n" ++
  "The compared strings, \x27" ++ string1 ++ "\x27 and \x27" ++ string2 ++
  "\x27, are always " ++ verdict ++
  ". Therefore the comparison is unnecessary and looks suspicious."

/-- `CheckString::alwaysTrueFalseStringCompareError`. -/
def alwaysTrueFalseStringCompareError (str1 str2 : String) : Finding :=
  { severity := Severity.warning
    ruleId := "staticStringCompare"
    message := atfsMessage (atfsTrunc str1) (atfsTrunc str2)
      (if str1 = str2 then "identical" else "unequal") }

/-- `CheckString::alwaysTrueStringVariableCompareError`. -/
def alwaysTrueStringVariableCompareError (str1 str2 : String) : Finding :=
  { severity := Severity.warning
    ruleId := "stringCompare"
    message := "Comparison of identical string variables.\n" ++
      "The compared strings, \x27" ++ str1 ++ "\x27 and \x27" ++ str2 ++
      "\x27, are identical. This could be a logic bug." }

/-- `CheckString::suspiciousStringCompareError`. -/
def suspiciousStringCompareError (var : String) : Finding :=
  { severity := Severity.warning
    ruleId := "literalWithCharPtrCompare"
    message := "String literal compared with variable \x27" ++ var ++
      "\x27. Did you intend to use strcmp() instead?" }

/-- `CheckString::suspiciousStringCompareError_char`. -/
def suspiciousStringCompareError_char (var : String) : Finding :=
  { severity := Severity.warning
    ruleId := "charLiteralWithCharPtrCompare"
    message := "Char literal compared with pointer \x27" ++ var ++
      "\x27. Did you intend to dereference it?" }

/-- `CheckString::strPlusCharError`. -/
def strPlusCharError : Finding :=
  { severity := Severity.warning
    ruleId := "strPlusChar"
    message := "Unusual pointer arithmetic. A value of type \x27char\x27 is added to a string literal." }

/-- `CheckString::strPlusIntegerError` (the misspelling "interger" is in
the source). -/
def strPlusIntegerError : Finding :=
  { severity := Severity.warning
    ruleId := "strPlusInteger"
    message := "Unusual pointer arithmetic. A value of type \x27interger\x27 is added to a string literal." }

/-- `CheckString::incorrectStringCompareError`. -/
def incorrectStringCompareError (func string : String) : Finding :=
  { severity := Severity.warning
    ruleId := "incorrectStringCompare"
    message := "String literal " ++ string ++
      " doesn\x27t match length argument for " ++ func ++ "()." }

/-- `CheckString::incorrectStringBooleanError`. -/
def incorrectStringBooleanError (string : String) : Finding :=
  { severity := Severity.warning
    ruleId := "incorrectStringBooleanError"
    message := "Conversion of string literal " ++ string ++
      " to bool always evaluates to true." }

/-- `CheckString::sprintfOverlappingDataError`. -/
def sprintfOverlappingDataError (varname : String) : Finding :=
  { severity := Severity.error
    ruleId := "sprintfOverlappingData"
    message := "Undefined behavior: Variable \x27" ++ varname ++
      "\x27 is used as parameter and destination in s[n]printf()." }

/-! ## AST nodes

An expression AST node: the node's token together with its optional
`astOperand1`/`astOperand2` subtrees.  The source accesses the AST through
`Token::astOperand1/astOperand2`; a missing operand (partial AST, or the
single operand of a unary operator being `astOperand1` only) is `none`. -/

/-- AST node: token plus optional left/right operand subtrees. -/
inductive ATree where
  | node : Tok → Option ATree → Option ATree → ATree
  deriving Repr

/-- The node's own token. -/
def ATree.tok : ATree → Tok
  | ATree.node t _ _ => t

/-- `astOperand1` of the node. -/
def ATree.op1 : ATree → Option ATree
  | ATree.node _ a _ => a

/-- `astOperand2` of the node. -/
def ATree.op2 : ATree → Option ATree
  | ATree.node _ _ b => b

/-- The member-access descent
`while (t && (t->str() == "." || t->str() == "::")) t = t->astOperand2();`
used twice in `checkSuspiciousStringCompare`; returns `none` when the chain
ends in a missing operand (a null `t` in the source). -/
def ATree.dotDesc : ATree → Option ATree
  | ATree.node t a b =>
    if t.str = "." ∨ t.str = "::" then
      match b with
      | some u => u.dotDesc
      | none => none
    else some (ATree.node t a b)

/-! ## Detector: suspicious pointer / string-literal comparison -/

/-- Whether a token is a string or number literal (the swap/skip test at
the head of `checkSuspiciousStringCompare`). -/
def isLit (t : Tok) : Bool :=
  t.tokType = TokType.eString || t.tokType = TokType.eNumber

/-- One branch of the C-mode pointer-addition special case: descend an
operand through `.`/`::` and keep it if it resolves to a pointer-typed
variable. -/
def plusSide (o : Option ATree) : Option ATree :=
  match o with
  | none => none
  | some t0 =>
    match t0.dotDesc with
    | some t =>
      if (t.tok.varInfo.map Var.isPointer).getD false then some t else none
    | none => none

/-- The pointer-addition special case of `checkSuspiciousStringCompare`:
both operands of the `+` are probed in order, so a qualifying
`astOperand2` wins over a qualifying `astOperand1` (the loop's last
assignment to `varTok` stands). -/
def plusDescend (v : ATree) : ATree :=
  match plusSide v.op2 with
  | some t => t
  | none =>
    match plusSide v.op1 with
    | some t => t
    | none => v

/-- Tail of `checkSuspiciousStringCompare` from the final `.`/`::` descent
on: requires the descended token to be a name, reads its variable fact and
decides which (if either) warning to emit.  The
`while (Token::Match(varTok->astParent(), "[.*]")) varTok = varTok->astParent();`
walk and `Token::expressionString` only affect the variable name shown in
the message; the embedding reports the name token's string (the claims
checked here do not depend on the displayed name). -/
def suspTail (isC : Bool) (varTok litTok : ATree) : Option Finding :=
  match varTok.dotDesc with
  | none => none
  | some vt =>
    if ¬ vt.tok.isName then none
    else
      if litTok.tok.tokType = TokType.eString then
        if isC ∨ (vt.tok.varInfo.map Var.isArrayOrPointer).getD false then
          some (suspiciousStringCompareError vt.tok.str)
        else none
      else
        if litTok.tok.originalName = "\x27\\0\x27" ∧
            (vt.tok.varInfo.map Var.isPointer).getD false then
          some (suspiciousStringCompareError_char vt.tok.str)
        else none

/-- Core of `checkSuspiciousStringCompare` after operand canonicalisation:
the pointer-addition special case, the C-mode dereference special case
(which requires the literal side to be a string literal and the `*` node to
be unary, i.e. `astOperand2 == nullptr`), then `suspTail`. -/
def suspCore (isC : Bool) (varTok litTok : ATree) : Option Finding :=
  let varTok := if varTok.tok.str = "+" ∧ isC then plusDescend varTok else varTok
  if varTok.tok.str = "*" then
    if (¬ isC) ∨ varTok.op2.isSome ∨ litTok.tok.tokType ≠ TokType.eString then
      none
    else
      match varTok.op1 with
      | some v1 => suspTail isC v1 litTok
      | none => none
  else suspTail isC varTok litTok

/-- Per-node body of the `checkSuspiciousStringCompare` scan loop: only
comparison-operator tokens with both AST operands are considered
(`if (!varTok || !litTok) continue` skips partial ASTs); if `astOperand1`
is a literal the logical roles are swapped, otherwise `astOperand2` must be
a literal. -/
def suspNode (isC : Bool) (t : ATree) : Option Finding :=
  if t.tok.tokType ≠ TokType.eComparisonOp then none
  else
    match t.op1, t.op2 with
    | some o1, some o2 =>
      if isLit o1.tok then suspCore isC o2 o1
      else if isLit o2.tok then suspCore isC o1 o2
      else none
    | _, _ => none

/-- `CheckString::checkSuspiciousStringCompare`: gated on the "warning"
category; applies `suspNode` to every token of every function scope (the
scope bodies are given as lists of AST node views). -/
def checkSuspiciousStringCompare (s : Settings) (isC : Bool)
    (scopes : List (List ATree)) : List Finding :=
  if ¬ s.warningEnabled then []
  else (scopes.map (fun sc => sc.filterMap (suspNode isC))).flatten

/-! ## Detector: string literal + char / integer arithmetic -/

/-- The static helper `isChar(const Variable*)`: a non-pointer, non-array
variable whose declared type starts with an undecorated `char`. -/
def isChar (vo : Option Var) : Bool :=
  match vo with
  | some v =>
    (!v.isPointer) && (!v.isArray) && v.typeStartStr = "char" &&
      v.typeStartOriginalName = ""
  | none => false

/-- Per-node body of the `strPlusChar` scan loop.  The result is `none`
when the source dereferences a null pointer: in the `eVariable` branch the
condition ends in `isChar(tok->astOperand2()->variable())` with no null
check on `astOperand2()`, so a `+` node whose left operand is a non-array
`char*` variable and whose right operand is missing crashes the checker.
`some fs` is normal completion with emitted findings `fs`. -/
def strPlusCharNode (t : ATree) : Option (List Finding) :=
  if t.tok.str = "+" ∧ t.op1.isSome then
    match t.op1 with
    | some a =>
      if a.tok.tokType = TokType.eString then
        some
          (match t.op2 with
           | some b =>
             if b.tok.tokType = TokType.eChar ∨ isChar b.tok.varInfo then
               [strPlusCharError]
             else []
           | none => [])
      else
        if a.tok.tokType = TokType.eVariable then
          match a.tok.varInfo with
          | some v =>
            if v.isPointer ∧ (¬ v.isArray) ∧ v.typeStartStr = "char" then
              match t.op2 with
              | some b => some (if isChar b.tok.varInfo then [strPlusCharError] else [])
              | none => none
            else some []
          | none => some []
        else some []
    | none => some []
  else some []

/-- Scan of one scope for `strPlusChar`; `none` propagates a crash. -/
def strPlusCharScan : List ATree → Option (List Finding)
  | [] => some []
  | t :: rest =>
    match strPlusCharNode t with
    | none => none
    | some fs => (strPlusCharScan rest).map (fun r => fs ++ r)

/-- `CheckString::strPlusChar`: scans every function scope.  The source
never reads the settings in this detector (it is not gated on any
diagnostic category), hence the unused parameter. -/
def strPlusChar (_s : Settings) (scopes : List (List ATree)) :
    Option (List Finding) :=
  match scopes with
  | [] => some []
  | sc :: rest =>
    match strPlusCharScan sc with
    | none => none
    | some fs => (strPlusChar _s rest).map (fun r => fs ++ r)

/-- Per-node body of the `strPlusInteger` scan loop (the variable-plus-char
branch is commented out in the source, so only the literal shape remains;
all operand accesses are null-checked). -/
def strPlusIntegerNode (t : ATree) : List Finding :=
  if t.tok.str = "+" ∧ t.op1.isSome then
    match t.op1 with
    | some a =>
      if a.tok.tokType = TokType.eString then
        match t.op2 with
        | some b => if b.tok.tokType = TokType.eNumber then [strPlusIntegerError] else []
        | none => []
      else []
    | none => []
  else []

/-- `CheckString::strPlusInteger` (not gated on any category). -/
def strPlusInteger (_s : Settings) (scopes : List (List ATree)) : List Finding :=
  (scopes.map (fun sc => (sc.map strPlusIntegerNode).flatten)).flatten

/-! ## Token-list traversal helpers

The source walks a doubly linked token list with bracket links.  Here a
scan position is the suffix of the token list starting at the current
token; the tokens already passed are carried, nearest first, in a reversed
prefix where backward walks need them.  `Token::strAt` of an absent token
is the empty string, as in the source. -/

/-- `str()` of the head token, or `""` when there is none
(`Token::strAt` returns the empty string for a null token). -/
def hdStr : List Tok → String
  | t :: _ => t.str
  | [] => ""

/-- `Token::nextArgument`, on the suffix starting at the current token:
returns the suffix starting after the next top-level `,`, skipping over
bracketed groups (the source jumps over them via bracket links; on
well-nested token lists tracking a nesting depth is equivalent), and `none`
on reaching the call's closing `)` or a top-level `;`. -/
def nextArgAux : Nat → List Tok → Option (List Tok)
  | _, [] => none
  | d, t :: r =>
    if t.str = "," ∧ d = 0 then some r
    else if t.str = "(" ∨ t.str = "[" ∨ t.str = "\x7b" then nextArgAux (d + 1) r
    else if t.str = ")" then (if d = 0 then none else nextArgAux (d - 1) r)
    else if t.str = "]" ∨ t.str = "\x7d" then nextArgAux (d - 1) r
    else if t.str = ";" ∧ d = 0 then none
    else nextArgAux d r

/-- Forward bracket-link lookup (`Token::linkAt`) for a same-kind bracket
pair: given the suffix starting right after an opener, the suffix starting
at its matching closer. -/
def findClose (openS closeS : String) : Nat → List Tok → Option (List Tok)
  | _, [] => none
  | d, t :: r =>
    if t.str = closeS then
      (if d = 0 then some (t :: r) else findClose openS closeS (d - 1) r)
    else if t.str = openS then findClose openS closeS (d + 1) r
    else findClose openS closeS d r

/-- Forward `(`-link lookup that also returns the tokens between the
opener and its matching `)` in reverse (nearest first), so that both
`link()` and `link()->tokAt(-k)` accesses are available. -/
def splitCloseAux : Nat → List Tok → List Tok → Option (List Tok × List Tok)
  | _, _, [] => none
  | d, acc, t :: r =>
    if t.str = ")" then
      (if d = 0 then some (acc, t :: r) else splitCloseAux (d - 1) (t :: acc) r)
    else if t.str = "(" then splitCloseAux (d + 1) (t :: acc) r
    else splitCloseAux d (t :: acc) r

/-- The opener matching a closing bracket, for the backward-walk pattern
`]|)|>` (for `>` the tokenizer only sets a link on template brackets; the
embedding approximates link existence by bracket balance, which coincides
on the inputs considered here). -/
def closerPair (s : String) : Option String :=
  if s = "]" then some "[" else
  if s = ")" then some "(" else
  if s = ">" then some "<" else none

/-- Backward bracket-link lookup (`begin->link()->previous()`): given the
reversed prefix before a closing bracket, the reversed prefix before its
matching opener; `none` models an absent link. -/
def backFind (openS closeS : String) : Nat → List Tok → Option (List Tok)
  | _, [] => none
  | d, t :: r =>
    if t.str = openS then
      (if d = 0 then some r else backFind openS closeS (d - 1) r)
    else if t.str = closeS then backFind openS closeS (d + 1) r
    else backFind openS closeS d r

/-- The inner loop of the statement-start search in
`checkIncorrectStringCompare`:
`while (begin->link() && Token::Match(begin, "]|)|>")) begin = begin->link()->previous();`
over the reversed prefix whose head is `begin`.  The step budget is always
called with the list length, which strictly dominates the number of jumps
(each jump shortens the list). -/
def bwInnerF : Nat → List Tok → List Tok
  | 0, l => l
  | Nat.succ n, l =>
    match l with
    | b :: tail =>
      (match closerPair b.str with
       | some op =>
         (match backFind op b.str 0 tail with
          | some r => bwInnerF n r
          | none => l)
       | none => l)
    | [] => l

/-- The outer statement-start loop of `checkIncorrectStringCompare`: run
the bracket-jumping inner loop, then if the token before `begin` is `.` or
`::` step back two tokens and repeat, else stop.  Each iteration removes at
least two tokens, so a budget of `length + 1` always suffices. -/
def bwOuterF : Nat → List Tok → List Tok
  | 0, l => l
  | Nat.succ n, l =>
    match bwInnerF l.length l with
    | b :: p :: r2 =>
      if p.str = "." ∨ p.str = "::" then bwOuterF n r2
      else b :: p :: r2
    | l2 => l2

/-- The full statement-start search (`begin` computation) of the `substr`
branch of `checkIncorrectStringCompare`, including the final
`begin = begin->previous()`: input is the reversed prefix whose head is
`tok->previous()`, output the reversed prefix whose head is the final
`begin`. -/
def beginWalk (prevRev : List Tok) : List Tok :=
  (bwOuterF (prevRev.length + 1) prevRev).drop 1

/-! ## Detector: always-true/false static string comparison -/

/-- The fixed set of compare functions matched by
`checkAlwaysTrueOrFalseStringCompare`. -/
def cmpFuncs : List String :=
  ["memcmp", "strncmp", "strcmp", "stricmp", "strverscmp", "bcmp", "strcmpi",
   "strcasecmp", "strncasecmp", "strncasecmp_l", "strcasecmp_l", "wcsncasecmp",
   "wcscasecmp", "wmemcmp", "wcscmp", "wcscasecmp_l", "wcsncasecmp_l",
   "wcsncmp", "_mbscmp", "_memicmp", "_memicmp_l", "_stricmp", "_wcsicmp",
   "_mbsicmp", "_stricmp_l", "_wcsicmp_l", "_mbsicmp_l"]

/-- The `.c_str()` call shape
`%name% . c_str ( ) , %name% . c_str ( ) ,|)` tested from the token after
the compare function's name. -/
def cstrShape : List Tok → Bool
  | _ :: n1 :: d1 :: cs1 :: l1 :: r1 :: cm :: n2 :: d2 :: cs2 :: l2 :: r2 :: cend :: _ =>
    if n1.isName ∧ d1.str = "." ∧ cs1.str = "c_str" ∧ l1.str = "(" ∧ r1.str = ")" ∧
        cm.str = "," ∧ n2.isName ∧ d2.str = "." ∧ cs2.str = "c_str" ∧ l2.str = "(" ∧
        r2.str = ")" ∧ (cend.str = "," ∨ cend.str = ")") then true else false
  | _ => false

/-- The three argument shapes tested inside the compare-function branch of
`checkAlwaysTrueOrFalseStringCompare`, on the suffix starting at the `(`:
two string literals (always fires), two plain names (fires only when
lexically identical), and two `.c_str()` calls on identical names.  The
result pairs the findings with the number of tokens, counted from the
function-name token, after which the scan resumes (`tok = tok->tokAt(k)`
followed by the loop's `tok = tok->next()`). -/
def atfsCallShape (rest : List Tok) : Option (List Finding × Nat) :=
  match rest with
  | _ :: a1 :: c1 :: a2 :: c2 :: _ =>
    if a1.tokType = TokType.eString ∧ c1.str = "," ∧ a2.tokType = TokType.eString ∧
        (c2.str = "," ∨ c2.str = ")") then
      some ([alwaysTrueFalseStringCompareError a1.str a2.str], 6)
    else if a1.isName ∧ c1.str = "," ∧ a2.isName ∧ (c2.str = "," ∨ c2.str = ")") then
      some ((if a1.str = a2.str then
               [alwaysTrueStringVariableCompareError a1.str a2.str] else []), 6)
    else if cstrShape rest then
      (match rest with
       | _ :: n1 :: _ :: _ :: _ :: _ :: _ :: n2 :: _ :: _ :: _ :: _ :: _ :: _ =>
         some ((if n1.str = n2.str then
                  [alwaysTrueStringVariableCompareError n1.str n2.str] else []), 14)
       | _ => none)
    else none
  | _ => none

/-- The `QString :: compare ( %str% , %str% )` shape, tested at the
`QString` token. -/
def qstringShape : List Tok → Bool
  | q :: a :: b :: c :: s1 :: d :: s2 :: e :: _ =>
    if q.str = "QString" ∧ a.str = "::" ∧ b.str = "compare" ∧ c.str = "(" ∧
        s1.tokType = TokType.eString ∧ d.str = "," ∧ s2.tokType = TokType.eString ∧
        e.str = ")" then true else false
  | _ => false

/-- The direct literal comparison shape `!!+ %str% ==|!= %str% !!+`
(`!!` matches an absent token, and `hdStr` of an empty suffix is `""`,
never `"+"`). -/
def eqShape : List Tok → Bool
  | tok :: s1 :: op :: s2 :: tail =>
    if tok.str ≠ "+" ∧ s1.tokType = TokType.eString ∧ (op.str = "==" ∨ op.str = "!=") ∧
        s2.tokType = TokType.eString ∧ hdStr tail ≠ "+" then true else false
  | _ => false

/-- One iteration of the `checkAlwaysTrueOrFalseStringCompare` loop at the
current suffix: the compare-function branch, the `QString::compare` branch
and the direct literal comparison branch, in the source's `else if` order.
`none` means no shape matched and the scan advances one token.  When the
compare-function head matches but none of its three argument shapes do,
the source falls out of that branch without testing the others, so the
result is `none` as well. -/
def atfsAt (l : List Tok) : Option (List Finding × Nat) :=
  match l with
  | tok :: rest =>
    if tok.isName ∧ tok.str ∈ cmpFuncs ∧ hdStr rest = "(" then
      atfsCallShape rest
    else if tok.isName ∧ qstringShape (tok :: rest) then
      (match l with
       | _ :: _ :: _ :: _ :: s1 :: _ :: s2 :: _ :: _ =>
         some ([alwaysTrueFalseStringCompareError s1.str s2.str], 8)
       | _ => none)
    else if eqShape (tok :: rest) then
      (match l with
       | _ :: s1 :: _ :: s2 :: _ =>
         some ([alwaysTrueFalseStringCompareError s1.str s2.str], 6)
       | _ => none)
    else none
  | [] => none

/-- The `checkAlwaysTrueOrFalseStringCompare` scan over the whole token
list of the translation unit (`_tokenizer->tokens()`; this detector does
not iterate function scopes).  Every step consumes at least one token, so
a budget of the list length always suffices. -/
def atfsScanF : Nat → List Tok → List Finding
  | 0, _ => []
  | Nat.succ n, l =>
    match l with
    | [] => []
    | tok :: rest =>
      match atfsAt (tok :: rest) with
      | some (fs, skip) => fs ++ atfsScanF n ((tok :: rest).drop skip)
      | none => atfsScanF n rest

/-- `CheckString::checkAlwaysTrueOrFalseStringCompare`: gated on the
"warning" category; scans the full token list. -/
def checkAlwaysTrueOrFalseStringCompare (s : Settings) (toks : List Tok) :
    List Finding :=
  if ¬ s.warningEnabled then [] else atfsScanF toks.length toks

/-! ## Detector: string-literal mutation -/

/-- The opening brace of a function scope (`scope->classStart`), the token
preceding the first scanned token of a scope body. -/
def lbraceTok : Tok := { str := "\x7b" }

/-- The indexed-write pattern of `stringLiteralWrite`:
`Token::Match(tok, "%var% [") && Token::simpleMatch(tok->linkAt(1), "] =")`. -/
def slwIndexWrite (tok : Tok) (rest : List Tok) : Bool :=
  match rest with
  | lb :: r2 =>
    if tok.varId ≠ 0 ∧ lb.str = "[" then
      match findClose "[" "]" 0 r2 with
      | some (_ :: e :: _) => if e.str = "=" then true else false
      | _ => false
    else false
  | [] => false

/-- The `stringLiteralWrite` scan over one scope body, carrying the
previous token for the `* %var% =` pattern.  Only pointer-typed variable
tokens whose value traces back to a string literal
(`getValueTokenMinStrSize`) are considered. -/
def slwScan (prev : Tok) : List Tok → List Finding
  | [] => []
  | tok :: rest =>
    (match tok.varInfo with
     | some v =>
       if v.isPointer then
         match tok.valueMinStrSize with
         | some sval =>
           if slwIndexWrite tok rest then [stringLiteralWriteError sval]
           else if prev.str = "*" ∧ tok.varId ≠ 0 ∧ hdStr rest = "=" then
             [stringLiteralWriteError sval]
           else []
         | none => []
       else []
     | none => []) ++ slwScan tok rest

/-- `CheckString::stringLiteralWrite` (not gated on any category): scans
every function scope body. -/
def stringLiteralWrite (_s : Settings) (scopes : List (List Tok)) : List Finding :=
  (scopes.map (slwScan lbraceTok)).flatten

/-! ## Detector: overlapping sprintf/snprintf/swprintf buffers -/

/-- Whether the head token is one of the three formatted-print functions. -/
def sodFn (s : String) : Bool :=
  if s = "sprintf" ∨ s = "snprintf" ∨ s = "swprintf" then true else false

/-- Destination-variable capture of `sprintfOverlappingData`: the patterns
`sprintf|snprintf|swprintf ( %var% ,` and
`sprintf|snprintf|swprintf ( %name% . %var% ,` (`%var%` is a token with a
non-zero variable id), yielding the destination's variable id. -/
def sodDest (cur : List Tok) : Option Nat :=
  match cur with
  | f :: lp :: rest =>
    if sodFn f.str ∧ lp.str = "(" then
      match rest with
      | v :: c :: _ =>
        if v.varId ≠ 0 ∧ c.str = "," then some v.varId
        else
          (match rest with
           | n :: dot :: v2 :: c2 :: _ =>
             if n.isName ∧ dot.str = "." ∧ v2.varId ≠ 0 ∧ c2.str = "," then
               some v2.varId
             else none
           | _ => none)
      | _ => none
    else none
  | _ => none

/-- The argument loop of `sprintfOverlappingData`:
`do { if (Token::Match(tok2, "%varid% [,)]", varid)) { fire; break; } }
while (nullptr != (tok2 = tok2->nextArgument()));`.  The budget is always
called with one more than the suffix length, which strictly dominates the
number of arguments. -/
def sodLoopF : Nat → Nat → List Tok → List Finding
  | 0, _, _ => []
  | Nat.succ n, varid, cur =>
    match cur with
    | t :: u :: _ =>
      if t.varId = varid ∧ (u.str = "," ∨ u.str = ")") then
        [sprintfOverlappingDataError t.str]
      else
        (match nextArgAux 0 cur with
         | some nxt => sodLoopF n varid nxt
         | none => [])
    | _ =>
      (match nextArgAux 0 cur with
       | some nxt => sodLoopF n varid nxt
       | none => [])

/-- Processing of one scan position by `sprintfOverlappingData`: capture
the destination id, step to the second argument
(`tok->tokAt(2)->nextArgument()`), skip one more argument for the
`n`-variants, then run the overlap loop — which therefore starts at the
format-string argument. -/
def sodAt (cur : List Tok) : List Finding :=
  match sodDest cur with
  | none => []
  | some varid =>
    match cur with
    | f :: _ =>
      (match nextArgAux 0 (cur.drop 2) with
       | none => []
       | some t2 =>
         if f.str = "snprintf" ∨ f.str = "swprintf" then
           match nextArgAux 0 t2 with
           | none => []
           | some t3 => sodLoopF (t3.length + 1) varid t3
         else sodLoopF (t2.length + 1) varid t2)
    | [] => []

/-- The `sprintfOverlappingData` scan over one scope body (the loop
advances one token at a time; a match does not skip the call). -/
def sodScan : List Tok → List Finding
  | [] => []
  | t :: rest => sodAt (t :: rest) ++ sodScan rest

/-- `CheckString::sprintfOverlappingData` (not gated on any category). -/
def sprintfOverlappingData (_s : Settings) (scopes : List (List Tok)) :
    List Finding :=
  (scopes.map sodScan).flatten

/-- Modelled from the spec (claim C2's reading of the overlap scan): "the
overlap scan begins at the first variadic argument — the format-string
argument is skipped, and for the n-variants the length argument is also
skipped".  Identical to `sodAt` except that the loop starts one argument
later (after the format string) in both cases.  Used only to compare the
spec's description against the source behaviour. -/
def sodSpecAt (cur : List Tok) : List Finding :=
  match sodDest cur with
  | none => []
  | some varid =>
    match cur with
    | f :: _ =>
      (match nextArgAux 0 (cur.drop 2) with
       | none => []
       | some t2 =>
         if f.str = "snprintf" ∨ f.str = "swprintf" then
           match nextArgAux 0 t2 with
           | none => []
           | some t3 =>
             match nextArgAux 0 t3 with
             | none => []
             | some t4 => sodLoopF (t4.length + 1) varid t4
         else
           match nextArgAux 0 t2 with
           | none => []
           | some t3 => sodLoopF (t3.length + 1) varid t3)
    | [] => []

/-- The spec-reading overlap scan over one scope body. -/
def sodSpecScan : List Tok → List Finding
  | [] => []
  | t :: rest => sodSpecAt (t :: rest) ++ sodSpecScan rest

/-! ## Detector: incorrect string compare / implicit boolean -/

/-- The assert-name test of `checkIncorrectStringCompare`:
`tok->str().size() >= 6U && (tok->str().find("assert") == tok->str().size()-6
|| tok->str().find("ASSERT") == tok->str().size()-6)` — the *first*
occurrence of `assert`/`ASSERT` must sit at the end of the name. -/
def endsAssert (s : String) : Bool :=
  if s.length ≥ 6 ∧ (strFind s "assert" = some (s.length - 6) ∨
      strFind s "ASSERT" = some (s.length - 6)) then true else false

/-- The assert-call skip of `checkIncorrectStringCompare`: on
`%name% (` with an assert-like name whose call contains `%str% &&` right
after the `(` or `&& %str%` right before the matching `)`, the scan jumps
to the closing `)`.  Returns the skipped tokens (reversed, nearest first)
and the suffix starting at the `)`.  The source reads
`tok->next()->link()` without a null check; the tokenizer guarantees the
link, and an unmatched `(` is treated as no match here. -/
def assertHit (cur : List Tok) : Option (List Tok × List Tok) :=
  match cur with
  | tok :: lp :: rest2 =>
    if tok.isName ∧ endsAssert tok.str ∧ lp.str = "(" then
      match splitCloseAux 0 [] rest2 with
      | some (insideRev, closeCur) =>
        let d1 : Bool :=
          match rest2 with
          | s :: amp :: _ =>
            if s.tokType = TokType.eString ∧ amp.str = "&&" then true else false
          | _ => false
        let d2 : Bool :=
          match insideRev with
          | sl :: amp :: _ =>
            if amp.str = "&&" ∧ sl.tokType = TokType.eString then true else false
          | _ => false
        if d1 || d2 then some (insideRev ++ lp :: [tok], closeCur) else none
      | none => none
    else none
  | _ => none

/-- The second-argument test of the `substr` branch:
`Token::Match(tok->tokAt(3)->nextArgument(), "%num% )")`. -/
def icsNumArgOk (rest3 : List Tok) : Bool :=
  match nextArgAux 0 rest3 with
  | some (nt :: rp :: _) =>
    if nt.tokType = TokType.eNumber ∧ rp.str = ")" then true else false
  | _ => false

/-- The guard of the `substr` branch:
`Token::simpleMatch(tok, ". substr (")` plus the numeric second argument. -/
def icsSubstrCond (cur : List Tok) : Bool :=
  match cur with
  | dot :: sub :: lp :: rest3 =>
    if dot.str = "." ∧ sub.str = "substr" ∧ lp.str = "(" then icsNumArgOk rest3
    else false
  | _ => false

/-- The forward comparison test of the `substr` branch:
`Token::Match(end, "==|!= %str% !!+")` with the length comparison, where
`end` is the token after the `substr` call's `)`. -/
def icsRight (clen : Int) (endSuf : List Tok) : List Finding :=
  match endSuf with
  | e0 :: l2 :: tail =>
    if (e0.str = "==" ∨ e0.str = "!=") ∧ l2.tokType = TokType.eString ∧
        hdStr tail ≠ "+" then
      (if clen ≠ (l2.strValue.length : Int) then
         [incorrectStringCompareError "substr" l2.str]
       else [])
    else []
  | _ => []

/-- Findings of the `substr` branch at the current position: compute
`clen` from the token before the call's `)` (`linkAt(2)->strAt(-1)`), walk
backward to the statement start, test the backward comparison
`Token::Match(begin->previous(), "%str% ==|!=") && begin->strAt(-2) != "+"`
and otherwise the forward one.  `Token::getStrLength` of a string literal
is the length of its unescaped content (`strValue`). -/
def icsSubstrFind (prevRev cur : List Tok) : List Finding :=
  match cur with
  | _ :: _ :: _ :: rest3 =>
    (match splitCloseAux 0 [] rest3 with
     | some (insideRev, closeCur) =>
       let clen : Int := (match insideRev with | nt :: _ => nt.numValue | [] => 0)
       let endSuf := closeCur.drop 1
       let bRev := beginWalk prevRev
       (match bRev with
        | b0 :: lit :: t2 =>
          if (b0.str = "==" ∨ b0.str = "!=") ∧ lit.tokType = TokType.eString ∧
              hdStr t2 ≠ "+" then
            (if clen ≠ (lit.strValue.length : Int) then
               [incorrectStringCompareError "substr" lit.str]
             else [])
          else icsRight clen endSuf
        | _ => icsRight clen endSuf)
     | none => [])
  | _ => []

/-- The implicit-boolean shape
`&&|%oror%|( %str% &&|%oror%|)` minus the exception `( %str% )`. -/
def icsBoolCond (cur : List Tok) : Bool :=
  match cur with
  | t0 :: s :: t2 :: _ =>
    if (t0.str = "&&" ∨ t0.str = "||" ∨ t0.str = "(") ∧
        s.tokType = TokType.eString ∧
        (t2.str = "&&" ∨ t2.str = "||" ∨ t2.str = ")") ∧
        ¬ (t0.str = "(" ∧ t2.str = ")") then true else false
  | _ => false

/-- The `if|while ( %str% )` shape. -/
def icsIfWhileCond (cur : List Tok) : Bool :=
  match cur with
  | t0 :: l :: s :: r :: _ =>
    if (t0.str = "if" ∨ t0.str = "while") ∧ l.str = "(" ∧
        s.tokType = TokType.eString ∧ r.str = ")" then true else false
  | _ => false

/-- The findings produced at one scan position of
`checkIncorrectStringCompare` (the source's `if` / `else if` chain after
the assert skip). -/
def icsFind (prevRev cur : List Tok) : List Finding :=
  if icsSubstrCond cur then icsSubstrFind prevRev cur
  else if icsBoolCond cur then [incorrectStringBooleanError (hdStr (cur.drop 1))]
  else if icsIfWhileCond cur then [incorrectStringBooleanError (hdStr (cur.drop 2))]
  else []

/-- The `checkIncorrectStringCompare` scan over one scope body.  On an
assert skip the source sets `tok` to the call's `)` and the remaining
branch tests of that iteration all fail at a `)` token, so resuming the
scan at the `)` is equivalent.  Every step moves to a strictly shorter
suffix, so a budget of the list length suffices. -/
def icsScanF : Nat → List Tok → List Tok → List Finding
  | 0, _, _ => []
  | Nat.succ n, prevRev, cur =>
    match cur with
    | [] => []
    | tok :: rest =>
      match assertHit (tok :: rest) with
      | some (skippedRev, closeCur) => icsScanF n (skippedRev ++ prevRev) closeCur
      | none => icsFind prevRev (tok :: rest) ++ icsScanF n (tok :: prevRev) rest

/-- `CheckString::checkIncorrectStringCompare`: gated on the "warning"
category; scans every function scope body, with the scope's opening brace
as the initial backward context. -/
def checkIncorrectStringCompare (s : Settings) (scopes : List (List Tok)) :
    List Finding :=
  if ¬ s.warningEnabled then []
  else (scopes.map (fun sc => icsScanF sc.length [lbraceTok] sc)).flatten

/-! ## The whole checker -/

/-- The inputs of one `CheckString` run over a translation unit: the full
token list (scanned by `checkAlwaysTrueOrFalseStringCompare`) and the
function scope bodies from the symbol database, as token lists for the
list-walking detectors and as AST node lists for the AST-walking ones. -/
structure TU where
  allToks : List Tok
  tokScopes : List (List Tok)
  astScopes : List (List ATree)

/-- All seven detectors of `CheckString::runChecks`, concatenated;
`none` propagates the `strPlusChar` crash. -/
def runAllChecks (s : Settings) (isC : Bool) (tu : TU) : Option (List Finding) :=
  match strPlusChar s tu.astScopes with
  | none => none
  | some spc =>
    some (stringLiteralWrite s tu.tokScopes ++
      checkAlwaysTrueOrFalseStringCompare s tu.allToks ++
      checkSuspiciousStringCompare s isC tu.astScopes ++
      spc ++
      strPlusInteger s tu.astScopes ++
      checkIncorrectStringCompare s tu.tokScopes ++
      sprintfOverlappingData s tu.tokScopes)

/-! ## Concrete inputs used by witnesses and counterexamples -/

/-- An identifier token. -/
def nameTok (s : String) : Tok := { str := s, tokType := TokType.eName }

/-- A plain operator / punctuation token. -/
def opTok (s : String) : Tok := { str := s }

/-- A string-literal token: quoted source form and unescaped content. -/
def strTok (q v : String) : Tok :=
  { str := q, tokType := TokType.eString, strValue := v }

/-- A number-literal token with its resolved value. -/
def numTok (s : String) (v : Int) : Tok :=
  { str := s, tokType := TokType.eNumber, numValue := v }

/-- Variable fact: a non-array `char *`. -/
def charPtrVar : Var :=
  { isPointer := true, isArray := false, typeStartStr := "char",
    typeStartOriginalName := "" }

/-- Variable fact: a plain undecorated `char`. -/
def charVar : Var :=
  { isPointer := false, isArray := false, typeStartStr := "char",
    typeStartOriginalName := "" }

/-- A `char *p` variable token. -/
def pPtrTok : Tok :=
  { str := "p", tokType := TokType.eVariable, varId := 1, varInfo := some charPtrVar }

/-- The simplified `'\0'` literal: the tokenizer turns it into the number
`0` with `originalName` recording the character literal. -/
def nulTok : Tok :=
  { str := "0", tokType := TokType.eNumber, originalName := "\x27\\0\x27" }

/-- A `==` comparison token. -/
def cmpEqTok : Tok := { str := "==", tokType := TokType.eComparisonOp }

/-- A `*` token (unary dereference in the AST demos). -/
def starTok : Tok := { str := "*" }

/-- A `+` token. -/
def plusTok : Tok := { str := "+" }

/-- AST of `*p == '\0'` with `p` a `char *`: the `*` node is unary
(`astOperand2` absent). -/
def derefCmpDemo : ATree :=
  ATree.node cmpEqTok
    (some (ATree.node starTok (some (ATree.node pPtrTok none none)) none))
    (some (ATree.node nulTok none none))

/-- AST of `p == '\0'` with `p` a `char *`. -/
def plainCmpDemo : ATree :=
  ATree.node cmpEqTok (some (ATree.node pPtrTok none none))
    (some (ATree.node nulTok none none))

/-- A `'c'` character literal token (no resolved variable). -/
def charLitTok : Tok := { str := "\x27c\x27", tokType := TokType.eChar }

/-- A plain `char c` variable token. -/
def charVarTok : Tok :=
  { str := "c", tokType := TokType.eVariable, varId := 2, varInfo := some charVar }

/-- AST of `p + 'c'` with `p` a `char *` (character literal on the right). -/
def c9LitDemo : ATree :=
  ATree.node plusTok (some (ATree.node pPtrTok none none))
    (some (ATree.node charLitTok none none))

/-- AST of `p + c` with `p` a `char *` and `c` a plain `char` variable. -/
def c9VarDemo : ATree :=
  ATree.node plusTok (some (ATree.node pPtrTok none none))
    (some (ATree.node charVarTok none none))

/-- AST of a `+` node with a `char *` left operand and a missing right
operand (e.g. unary `+p`, or a partial AST). -/
def c3CrashDemo : ATree :=
  ATree.node plusTok (some (ATree.node pPtrTok none none)) none

/-- A translation unit with no function scopes whose global tokens contain
the literal comparison `; "a" == "a"`. -/
def c4TU : TU :=
  { allToks := [opTok ";", strTok "\"a\"" "a", opTok "==", strTok "\"a\"" "a"]
    tokScopes := []
    astScopes := [] }

/-- A `char *p` token whose value is known to trace back to the string
literal `"hello"`. -/
def slwPtrTok : Tok :=
  { str := "p", tokType := TokType.eVariable, varId := 1,
    varInfo := some charPtrVar, valueMinStrSize := some "hello" }

/-- Scope body `p [ 0 ] =` (indexed write through `p`). -/
def slwDemoScope : List Tok :=
  [slwPtrTok, opTok "[", numTok "0" 0, opTok "]", opTok "="]

/-- AST leaf for the string literal `"abc"`. -/
def strLitNode : ATree := ATree.node (strTok "\"abc\"" "abc") none none

/-- Scope with the single node `"abc" + 'c'`. -/
def spcDemoScope : List ATree :=
  [ATree.node plusTok (some strLitNode) (some (ATree.node charLitTok none none))]

/-- Scope with the single node `"abc" + 1`. -/
def spiDemoScope : List ATree :=
  [ATree.node plusTok (some strLitNode) (some (ATree.node (numTok "1" 1) none none))]

/-- The destination buffer variable `buf`. -/
def bufTok : Tok := { str := "buf", tokType := TokType.eVariable, varId := 1 }

/-- A distinct source variable `other`. -/
def otherTok : Tok := { str := "other", tokType := TokType.eVariable, varId := 2 }

/-- Tokens of `sprintf ( buf , buf )` — the second argument (the format
position) is the destination buffer itself. -/
def c2Demo : List Tok :=
  [nameTok "sprintf", opTok "(", bufTok, opTok ",", bufTok, opTok ")"]

/-- Tokens of `snprintf ( buf , 9 , "%s" , buf )`. -/
def snprintfDemo : List Tok :=
  [nameTok "snprintf", opTok "(", bufTok, opTok ",", numTok "9" 9, opTok ",",
   strTok "\"%s\"" "%s", opTok ",", bufTok, opTok ")"]

/-- Tokens of `sprintf ( buf , "%s" , other )`. -/
def sprintfOtherDemo : List Tok :=
  [nameTok "sprintf", opTok "(", bufTok, opTok ",", strTok "\"%s\"" "%s",
   opTok ",", otherTok, opTok ")"]

/-- A plain `std::string s` variable token. -/
def sVarTok : Tok := { str := "s", tokType := TokType.eVariable, varId := 3 }

/-- Tokens of `. substr ( 0 , 3 )`, the scan position of the `substr`
branch. -/
def substrCurDemo : List Tok :=
  [opTok ".", nameTok "substr", opTok "(", numTok "0" 0, opTok ",",
   numTok "3" 3, opTok ")"]

/-! ## String-length helper lemmas -/

/-- Length of `takeChars`. -/
theorem takeChars_length (s : String) (n : Nat) :
    (takeChars s n).length = min n s.length :=
  List.length_take n s.data

/-- Length of a string append. -/
theorem append_length (s t : String) : (s ++ t).length = s.length + t.length :=
  String.length_append s t

/-- `takeChars` cuts an append at the length of its left part. -/
theorem takeChars_append_left (s t : String) (n : Nat) (h : s.length = n) :
    takeChars (s ++ t) n = s := by
  cases s with
  | mk d =>
    have hd : d.length = n := h
    simp [takeChars, String.data_append, List.take_append_eq_append_take, hd]

/-- The ellipsis has length two. -/
theorem dots_length : (".." : String).length = 2 := rfl

/-- `slwTrunc` on a long literal. -/
theorem slwTrunc_big (s : String) (h : s.length > 15) :
    slwTrunc s = takeChars s 13 ++ ".." := if_pos h

/-- `slwTrunc` on a short literal. -/
theorem slwTrunc_small (s : String) (h : ¬ s.length > 15) : slwTrunc s = s :=
  if_neg h

/-- A truncated `slwTrunc` display string has length 15. -/
theorem slwTrunc_len_big (s : String) (h : s.length > 15) :
    (slwTrunc s).length = 15 := by
  rw [slwTrunc_big s h, append_length, takeChars_length, dots_length]
  omega

/-- `atfsTrunc` on a short literal. -/
theorem atfsTrunc_small (s : String) (h : s.length < 10) : atfsTrunc s = s :=
  if_pos h

/-- `atfsTrunc` on a long literal. -/
theorem atfsTrunc_big (s : String) (h : ¬ s.length < 10) :
    atfsTrunc s = takeChars s 8 ++ ".." := if_neg h

/-- The kept prefix of a long `atfsTrunc` input has length 8. -/
theorem takeChars_eight (s : String) (h : ¬ s.length < 10) :
    (takeChars s 8).length = 8 := by
  rw [takeChars_length]; omega

/-! ## Shared scan lemmas -/

/-- `ATree.dotDesc` is the identity on a node that is not a `.`/`::`
member access. -/
theorem dotDesc_stop (t : Tok) (a b : Option ATree)
    (h1 : t.str ≠ ".") (h2 : t.str ≠ "::") :
    (ATree.node t a b).dotDesc = some (ATree.node t a b) := by
  unfold ATree.dotDesc
  simp [h1, h2]

/-- A per-scope detector that maps the empty scope to no findings yields no
findings on a translation unit all of whose scopes are empty. -/
theorem flatten_map_nil {α β : Type} (f : List α → List β) (hf : f [] = [])
    (l : List (List α)) (h : ∀ x ∈ l, x = []) : (l.map f).flatten = [] := by
  induction l with
  | nil => rfl
  | cons a t ih =>
    have ha := h a (List.mem_cons_self a t)
    have ht : ∀ x ∈ t, x = [] := fun x hx => h x (List.mem_cons_of_mem a hx)
    subst ha
    simp [hf, ih ht]

/-- `strPlusChar` on empty scopes: no findings and no crash. -/
theorem strPlusChar_nilScopes (s : Settings) (scopes : List (List ATree))
    (h : ∀ y ∈ scopes, y = []) : strPlusChar s scopes = some [] := by
  induction scopes with
  | nil => rfl
  | cons a t ih =>
    have ha := h a (List.mem_cons_self a t)
    have ht : ∀ x ∈ t, x = [] := fun x hx => h x (List.mem_cons_of_mem a hx)
    subst ha
    simp [strPlusChar, strPlusCharScan, ih ht]

/-- A token that is none of the argument-delimiting punctuation symbols
(so the argument walkers step over it without changing depth). -/
def plainArgTok (t : Tok) : Prop :=
  t.str ≠ "," ∧ t.str ≠ "(" ∧ t.str ≠ ")" ∧ t.str ≠ "[" ∧ t.str ≠ "]" ∧
  t.str ≠ "\x7b" ∧ t.str ≠ "\x7d" ∧ t.str ≠ ";"

instance (t : Tok) : Decidable (plainArgTok t) := by
  unfold plainArgTok; infer_instance

/-- `nextArgAux` steps over a plain token. -/
theorem nextArgAux_plain (d : Nat) (t : Tok) (r : List Tok) (hp : plainArgTok t) :
    nextArgAux d (t :: r) = nextArgAux d r := by
  obtain ⟨h1, h2, h3, h4, h5, h6, h7, h8⟩ := hp
  unfold nextArgAux
  simp [h1, h2, h3, h4, h5, h6, h7, h8]
  rw [nextArgAux.eq_def]

/-- `nextArgAux` stops after a top-level comma. -/
theorem nextArgAux_comma (c : Tok) (r : List Tok) (hc : c.str = ",") :
    nextArgAux 0 (c :: r) = some r := by
  unfold nextArgAux; simp [hc]

/-- `splitCloseAux` accumulates a plain token. -/
theorem splitCloseAux_plain (d : Nat) (acc : List Tok) (t : Tok) (r : List Tok)
    (h1 : t.str ≠ ")") (h2 : t.str ≠ "(") :
    splitCloseAux d acc (t :: r) = splitCloseAux d (t :: acc) r := by
  unfold splitCloseAux
  simp [h1, h2]
  rw [splitCloseAux.eq_def]

/-- `splitCloseAux` stops at the matching `)`. -/
theorem splitCloseAux_close (acc : List Tok) (t : Tok) (r : List Tok)
    (h : t.str = ")") :
    splitCloseAux 0 acc (t :: r) = some (acc, t :: r) := by
  unfold splitCloseAux; simp [h]

/-- The bracket-jumping inner loop stops at a non-closer. -/
theorem bwInnerF_stop (n : Nat) (t : Tok) (tail : List Tok)
    (h : closerPair t.str = none) :
    bwInnerF (n + 1) (t :: tail) = t :: tail := by
  unfold bwInnerF; simp [h]

/-- The statement-start search from a plain name not preceded by a
member access: `begin` ends up one token back. -/
theorem beginWalk_cons (s e : Tok) (rest : List Tok)
    (hs : closerPair s.str = none) (h1 : e.str ≠ ".") (h2 : e.str ≠ "::") :
    beginWalk (s :: e :: rest) = e :: rest := by
  unfold beginWalk bwOuterF
  simp [bwInnerF_stop _ _ _ hs, h1, h2]

/-- The statement-start search when nothing precedes the name. -/
theorem beginWalk_single (s : Tok) (hs : closerPair s.str = none) :
    beginWalk [s] = [] := by
  unfold beginWalk bwOuterF
  simp [bwInnerF_stop _ _ _ hs]

/-- For a matched `sprintf ( %var% ,` call the overlap loop starts right
after the destination's comma — at the format-string argument. -/
theorem sodAt_sprintf_dest (f lp v c : Tok) (rest : List Tok)
    (hf : f.str = "sprintf") (hlp : lp.str = "(")
    (hv : v.varId ≠ 0) (hvp : plainArgTok v) (hc : c.str = ",") :
    sodAt (f :: lp :: v :: c :: rest) = sodLoopF (rest.length + 1) v.varId rest := by
  have hdest : sodDest (f :: lp :: v :: c :: rest) = some v.varId := by
    unfold sodDest sodFn
    simp [hf, hlp, hv, hc]
  have hna : nextArgAux 0 (v :: c :: rest) = some rest := by
    rw [nextArgAux_plain _ _ _ hvp, nextArgAux_comma _ _ hc]
  unfold sodAt
  simp [hdest, hna, hf]

/-- For a matched `snprintf|swprintf ( %var% ,` call the overlap loop
starts after one more argument — again at the format-string argument. -/
theorem sodAt_nvariant_dest (f lp v c : Tok) (rest : List Tok)
    (hf : f.str = "snprintf" ∨ f.str = "swprintf") (hlp : lp.str = "(")
    (hv : v.varId ≠ 0) (hvp : plainArgTok v) (hc : c.str = ",") :
    sodAt (f :: lp :: v :: c :: rest)
      = (nextArgAux 0 rest).elim [] (fun t3 => sodLoopF (t3.length + 1) v.varId t3) := by
  have hsod : sodFn f.str = true := by
    rcases hf with h | h <;> simp [sodFn, h]
  have hdest : sodDest (f :: lp :: v :: c :: rest) = some v.varId := by
    unfold sodDest
    simp [hsod, hlp, hv, hc]
  have hna : nextArgAux 0 (v :: c :: rest) = some rest := by
    rw [nextArgAux_plain _ _ _ hvp, nextArgAux_comma _ _ hc]
  unfold sodAt
  simp [hdest, hna, hf]
  cases h : nextArgAux 0 rest <;> simp [h]

/-- The member-access destination shape `sprintf ( %name% . %var% ,`. -/
theorem sodAt_member_dest (f lp nm dot v2 c2 : Tok) (rest : List Tok)
    (hf : f.str = "sprintf") (hlp : lp.str = "(")
    (hn : nm.isName = true) (hnp : plainArgTok nm) (hdot : dot.str = ".")
    (hv : v2.varId ≠ 0) (hvp : plainArgTok v2) (hc : c2.str = ",") :
    sodAt (f :: lp :: nm :: dot :: v2 :: c2 :: rest)
      = sodLoopF (rest.length + 1) v2.varId rest := by
  have hdp : plainArgTok dot := by simp [plainArgTok, hdot]
  have hdest : sodDest (f :: lp :: nm :: dot :: v2 :: c2 :: rest) = some v2.varId := by
    unfold sodDest sodFn
    simp [hf, hlp, hdot, hn, hv, hc]
  have hna : nextArgAux 0 (nm :: dot :: v2 :: c2 :: rest) = some rest := by
    rw [nextArgAux_plain _ _ _ hnp, nextArgAux_plain _ _ _ hdp,
      nextArgAux_plain _ _ _ hvp, nextArgAux_comma _ _ hc]
  unfold sodAt
  simp [hdest, hna, hf]

/-- The overlap loop fires on a bare argument token with the
destination's variable id followed by `,` or `)`, and stops. -/
theorem sodLoopF_hit (n varid : Nat) (t u : Tok) (r : List Tok)
    (ht : t.varId = varid) (hu : u.str = "," ∨ u.str = ")") :
    sodLoopF (n + 1) varid (t :: u :: r) = [sprintfOverlappingDataError t.str] := by
  unfold sodLoopF
  simp [ht, hu]

/-- `substr` length check, literal on the left:
`%str% ==|!= %var% . substr ( pos , len )` fires exactly on a length
mismatch (no `+` before the literal). -/
theorem icsFind_substr_left (sTok eq lit : Tok) (before : List Tok)
    (dot sub lp pos cm num rp : Tok) (after : List Tok)
    (hs : closerPair sTok.str = none)
    (heq : eq.str = "==" ∨ eq.str = "!=") (hlit : lit.tokType = TokType.eString)
    (hbef : hdStr before ≠ "+")
    (hdot : dot.str = ".") (hsub : sub.str = "substr") (hlp : lp.str = "(")
    (hpos : plainArgTok pos) (hcm : cm.str = ",")
    (hnum : num.tokType = TokType.eNumber) (hnump : plainArgTok num)
    (hrp : rp.str = ")") :
    icsFind (sTok :: eq :: lit :: before)
        (dot :: sub :: lp :: pos :: cm :: num :: rp :: after)
      = (if num.numValue ≠ (lit.strValue.length : Int) then
          [incorrectStringCompareError "substr" lit.str] else []) := by
  have heqd : eq.str ≠ "." ∧ eq.str ≠ "::" := by
    rcases heq with h | h <;> simp [h]
  have hna : nextArgAux 0 (pos :: cm :: num :: rp :: after)
      = some (num :: rp :: after) := by
    rw [nextArgAux_plain _ _ _ hpos, nextArgAux_comma _ _ hcm]
  have hcond : icsSubstrCond (dot :: sub :: lp :: pos :: cm :: num :: rp :: after)
      = true := by
    unfold icsSubstrCond icsNumArgOk
    simp [hdot, hsub, hlp, hna, hnum, hrp]
  have hsplit : splitCloseAux 0 []
      (pos :: cm :: num :: rp :: after)
      = some ([num, cm, pos], rp :: after) := by
    rw [splitCloseAux_plain _ _ _ _ hpos.2.2.1 hpos.2.1,
      splitCloseAux_plain _ _ _ _ (by simp [hcm]) (by simp [hcm]),
      splitCloseAux_plain _ _ _ _ hnump.2.2.1 hnump.2.1,
      splitCloseAux_close _ _ _ hrp]
  have hbw : beginWalk (sTok :: eq :: lit :: before) = eq :: lit :: before :=
    beginWalk_cons _ _ _ hs heqd.1 heqd.2
  unfold icsFind
  rw [if_pos hcond]
  unfold icsSubstrFind
  simp only [hsplit, hbw]
  simp [heq, hlit, hbef]

/-- `substr` length check, literal on the right:
`%var% . substr ( pos , len ) ==|!= %str%` fires exactly on a length
mismatch (no `+` after the literal). -/
theorem icsFind_substr_right (sTok : Tok) (dot sub lp pos cm num rp eqT lit2 : Tok)
    (after2 : List Tok)
    (hs : closerPair sTok.str = none)
    (hdot : dot.str = ".") (hsub : sub.str = "substr") (hlp : lp.str = "(")
    (hpos : plainArgTok pos) (hcm : cm.str = ",")
    (hnum : num.tokType = TokType.eNumber) (hnump : plainArgTok num)
    (hrp : rp.str = ")")
    (heq : eqT.str = "==" ∨ eqT.str = "!=") (hlit : lit2.tokType = TokType.eString)
    (haft : hdStr after2 ≠ "+") :
    icsFind [sTok]
        (dot :: sub :: lp :: pos :: cm :: num :: rp :: eqT :: lit2 :: after2)
      = (if num.numValue ≠ (lit2.strValue.length : Int) then
          [incorrectStringCompareError "substr" lit2.str] else []) := by
  have hna : nextArgAux 0 (pos :: cm :: num :: rp :: eqT :: lit2 :: after2)
      = some (num :: rp :: eqT :: lit2 :: after2) := by
    rw [nextArgAux_plain _ _ _ hpos, nextArgAux_comma _ _ hcm]
  have hcond : icsSubstrCond
      (dot :: sub :: lp :: pos :: cm :: num :: rp :: eqT :: lit2 :: after2)
      = true := by
    unfold icsSubstrCond icsNumArgOk
    simp [hdot, hsub, hlp, hna, hnum, hrp]
  have hsplit : splitCloseAux 0 []
      (pos :: cm :: num :: rp :: eqT :: lit2 :: after2)
      = some ([num, cm, pos], rp :: eqT :: lit2 :: after2) := by
    rw [splitCloseAux_plain _ _ _ _ hpos.2.2.1 hpos.2.1,
      splitCloseAux_plain _ _ _ _ (by simp [hcm]) (by simp [hcm]),
      splitCloseAux_plain _ _ _ _ hnump.2.2.1 hnump.2.1,
      splitCloseAux_close _ _ _ hrp]
  have hbw : beginWalk [sTok] = [] := beginWalk_single _ hs
  unfold icsFind
  rw [if_pos hcond]
  unfold icsSubstrFind
  simp only [hsplit, hbw]
  unfold icsRight
  simp [heq, hlit, haft]

/-- Left-literal `substr` comparison suppressed by a preceding `+` (string
concatenation): no finding, whatever the lengths. -/
theorem icsFind_substr_left_plus (sTok eq lit plus : Tok) (before : List Tok)
    (dot sub lp pos cm num rp : Tok) (after : List Tok)
    (hs : closerPair sTok.str = none)
    (heq : eq.str = "==" ∨ eq.str = "!=") (_hlit : lit.tokType = TokType.eString)
    (hplus : plus.str = "+")
    (hdot : dot.str = ".") (hsub : sub.str = "substr") (hlp : lp.str = "(")
    (hpos : plainArgTok pos) (hcm : cm.str = ",")
    (hnum : num.tokType = TokType.eNumber) (hnump : plainArgTok num)
    (hrp : rp.str = ")")
    (haft1 : hdStr after ≠ "==") (haft2 : hdStr after ≠ "!=") :
    icsFind (sTok :: eq :: lit :: plus :: before)
        (dot :: sub :: lp :: pos :: cm :: num :: rp :: after)
      = [] := by
  have heqd : eq.str ≠ "." ∧ eq.str ≠ "::" := by
    rcases heq with h | h <;> simp [h]
  have hna : nextArgAux 0 (pos :: cm :: num :: rp :: after)
      = some (num :: rp :: after) := by
    rw [nextArgAux_plain _ _ _ hpos, nextArgAux_comma _ _ hcm]
  have hcond : icsSubstrCond (dot :: sub :: lp :: pos :: cm :: num :: rp :: after)
      = true := by
    unfold icsSubstrCond icsNumArgOk
    simp [hdot, hsub, hlp, hna, hnum, hrp]
  have hsplit : splitCloseAux 0 []
      (pos :: cm :: num :: rp :: after)
      = some ([num, cm, pos], rp :: after) := by
    rw [splitCloseAux_plain _ _ _ _ hpos.2.2.1 hpos.2.1,
      splitCloseAux_plain _ _ _ _ (by simp [hcm]) (by simp [hcm]),
      splitCloseAux_plain _ _ _ _ hnump.2.2.1 hnump.2.1,
      splitCloseAux_close _ _ _ hrp]
  have hbw : beginWalk (sTok :: eq :: lit :: plus :: before)
      = eq :: lit :: plus :: before :=
    beginWalk_cons _ _ _ hs heqd.1 heqd.2
  unfold icsFind
  rw [if_pos hcond]
  unfold icsSubstrFind
  simp only [hsplit, hbw]
  have hleft : ¬ ((eq.str = "==" ∨ eq.str = "!=") ∧
      lit.tokType = TokType.eString ∧ hdStr (plus :: before) ≠ "+") := by
    simp [hdStr, hplus]
  rw [if_neg hleft]
  unfold icsRight
  cases after with
  | nil => simp
  | cons e0 t =>
    cases t with
    | nil => simp
    | cons l2 tl =>
      have he0 : e0.str ≠ "==" := by simpa [hdStr] using haft1
      have he0b : e0.str ≠ "!=" := by simpa [hdStr] using haft2
      simp [he0, he0b]

/-- Right-literal `substr` comparison suppressed by a following `+`:
no finding, whatever the lengths. -/
theorem icsFind_substr_right_plus (sTok : Tok)
    (dot sub lp pos cm num rp eqT lit2 plus : Tok) (after3 : List Tok)
    (hs : closerPair sTok.str = none)
    (hdot : dot.str = ".") (hsub : sub.str = "substr") (hlp : lp.str = "(")
    (hpos : plainArgTok pos) (hcm : cm.str = ",")
    (hnum : num.tokType = TokType.eNumber) (hnump : plainArgTok num)
    (hrp : rp.str = ")")
    (_heq : eqT.str = "==" ∨ eqT.str = "!=") (_hlit : lit2.tokType = TokType.eString)
    (hplus : plus.str = "+") :
    icsFind [sTok]
        (dot :: sub :: lp :: pos :: cm :: num :: rp :: eqT :: lit2 :: plus :: after3)
      = [] := by
  have hna : nextArgAux 0 (pos :: cm :: num :: rp :: eqT :: lit2 :: plus :: after3)
      = some (num :: rp :: eqT :: lit2 :: plus :: after3) := by
    rw [nextArgAux_plain _ _ _ hpos, nextArgAux_comma _ _ hcm]
  have hcond : icsSubstrCond
      (dot :: sub :: lp :: pos :: cm :: num :: rp :: eqT :: lit2 :: plus :: after3)
      = true := by
    unfold icsSubstrCond icsNumArgOk
    simp [hdot, hsub, hlp, hna, hnum, hrp]
  have hsplit : splitCloseAux 0 []
      (pos :: cm :: num :: rp :: eqT :: lit2 :: plus :: after3)
      = some ([num, cm, pos], rp :: eqT :: lit2 :: plus :: after3) := by
    rw [splitCloseAux_plain _ _ _ _ hpos.2.2.1 hpos.2.1,
      splitCloseAux_plain _ _ _ _ (by simp [hcm]) (by simp [hcm]),
      splitCloseAux_plain _ _ _ _ hnump.2.2.1 hnump.2.1,
      splitCloseAux_close _ _ _ hrp]
  have hbw : beginWalk [sTok] = [] := beginWalk_single _ hs
  unfold icsFind
  rw [if_pos hcond]
  unfold icsSubstrFind
  simp only [hsplit, hbw]
  unfold icsRight
  simp [hdStr, hplus]

/-! ## Claim C8 -/

/-- C8: the two literal-display truncations are deterministic functions of
the input string (they are functions), idempotent, keep a literal of
exactly the largest untruncated length (15 for `stringLiteralWrite`, 9 for
`staticStringCompare`) unchanged, truncate one character over (to the
first 13 characters plus `".."`, resp. the first 8 plus `".."`), and are
exactly the truncations embedded in the two diagnostic messages. -/
theorem literalTruncation_props :
    (∀ s : String, slwTrunc (slwTrunc s) = slwTrunc s) ∧
    (∀ s : String, atfsTrunc (atfsTrunc s) = atfsTrunc s) ∧
    (∀ s : String, s.length = 15 → slwTrunc s = s) ∧
    (∀ s : String, s.length = 16 → slwTrunc s = takeChars s 13 ++ "..") ∧
    (∀ s : String, s.length = 9 → atfsTrunc s = s) ∧
    (∀ s : String, s.length = 10 → atfsTrunc s = takeChars s 8 ++ "..") ∧
    (∀ s : String, (stringLiteralWriteError s).message =
      "Modifying string literal \"" ++ slwTrunc s ++
        "\" directly or indirectly is undefined behaviour.") ∧
    (∀ a b : String, (alwaysTrueFalseStringCompareError a b).message =
      atfsMessage (atfsTrunc a) (atfsTrunc b)
        (if a = b then "identical" else "unequal")) := by
  refine ⟨?_, ?_, ?_, ?_, ?_, ?_, fun s => rfl, fun a b => rfl⟩
  · intro s
    by_cases h : s.length > 15
    · exact slwTrunc_small _ (by rw [slwTrunc_len_big s h]; omega)
    · rw [slwTrunc_small s h]; exact slwTrunc_small s h
  · intro s
    by_cases h : s.length < 10
    · rw [atfsTrunc_small s h]; exact atfsTrunc_small s h
    · rw [atfsTrunc_big s h]
      have hlen : (takeChars s 8 ++ "..").length = 10 := by
        rw [append_length, takeChars_eight s h, dots_length]
      rw [atfsTrunc_big _ (by rw [hlen]; omega)]
      rw [takeChars_append_left _ _ _ (takeChars_eight s h)]
  · intro s h; exact slwTrunc_small s (by omega)
  · intro s h; exact slwTrunc_big s (by omega)
  · intro s h; exact atfsTrunc_small s (by omega)
  · intro s h; exact atfsTrunc_big s (by omega)

/-- Witness for C8 at concrete strings of lengths 15, 16, 9 and 10. -/
theorem literalTruncation_props_wit :
    slwTrunc "abcdefghijklmno" = "abcdefghijklmno" ∧
    slwTrunc "abcdefghijklmnop" = takeChars "abcdefghijklmnop" 13 ++ ".." ∧
    atfsTrunc "abcdefghi" = "abcdefghi" ∧
    atfsTrunc "abcdefghij" = takeChars "abcdefghij" 8 ++ ".." :=
  ⟨literalTruncation_props.2.2.1 _ (by decide),
   literalTruncation_props.2.2.2.1 _ (by decide),
   literalTruncation_props.2.2.2.2.1 _ (by decide),
   literalTruncation_props.2.2.2.2.2.1 _ (by decide)⟩

/-! ## Claim C6 -/

/-- C6: a call of a listed compare function on two string-literal
arguments always fires one `staticStringCompare` warning, whose message
carries the verdict word `"identical"` exactly when the two literal texts
are equal and `"unequal"` exactly when they differ (the two message forms
are distinct); the scan resumes after the consumed call tokens. -/
theorem staticStringCompare_literalPair :
    (∀ (n : Nat) (f lp s1 c s2 cl : Tok) (rest : List Tok),
      f.isName = true → f.str ∈ cmpFuncs → lp.str = "(" →
      s1.tokType = TokType.eString → c.str = "," →
      s2.tokType = TokType.eString → (cl.str = "," ∨ cl.str = ")") →
      atfsScanF (n + 1) (f :: lp :: s1 :: c :: s2 :: cl :: rest)
        = alwaysTrueFalseStringCompareError s1.str s2.str :: atfsScanF n rest) ∧
    (∀ toks : List Tok,
      checkAlwaysTrueOrFalseStringCompare ⟨true⟩ toks
        = atfsScanF toks.length toks) ∧
    (∀ a b : String,
      (alwaysTrueFalseStringCompareError a b).message
        = atfsMessage (atfsTrunc a) (atfsTrunc b)
            (if a = b then "identical" else "unequal") ∧
      (alwaysTrueFalseStringCompareError a b).ruleId = "staticStringCompare" ∧
      (alwaysTrueFalseStringCompareError a b).severity = Severity.warning) ∧
    (∀ a b : String, atfsMessage a b "identical" ≠ atfsMessage a b "unequal") := by
  refine ⟨?_, fun toks => rfl, fun a b => ⟨rfl, rfl, rfl⟩, ?_⟩
  · intro n f lp s1 c s2 cl rest hf hmem hlp hs1 hc hs2 hcl
    have hAt : atfsAt (f :: lp :: s1 :: c :: s2 :: cl :: rest)
        = some ([alwaysTrueFalseStringCompareError s1.str s2.str], 6) := by
      simp only [atfsAt, hdStr]
      rw [if_pos ⟨hf, hmem, hlp⟩]
      simp only [atfsCallShape]
      rw [if_pos ⟨hs1, hc, hs2, hcl⟩]
    simp [atfsScanF, hAt]
  · intro a b h
    have h9 : ("identical" : String).length = 9 := rfl
    have h7 : ("unequal" : String).length = 7 := rfl
    have hlen := congrArg String.length h
    simp only [atfsMessage, append_length, h9, h7] at hlen
    omega

/-- Witness for C6: `strcmp ( "abc" , "xyz" )` fires with "unequal",
`strcmp ( "abc" , "abc" )` with "identical". -/
theorem staticStringCompare_literalPair_wit :
    atfsScanF 1 [nameTok "strcmp", opTok "(", strTok "\"abc\"" "abc",
        opTok ",", strTok "\"xyz\"" "xyz", opTok ")"]
      = [alwaysTrueFalseStringCompareError "\"abc\"" "\"xyz\""] ∧
    atfsScanF 1 [nameTok "strcmp", opTok "(", strTok "\"abc\"" "abc",
        opTok ",", strTok "\"abc\"" "abc", opTok ")"]
      = [alwaysTrueFalseStringCompareError "\"abc\"" "\"abc\""] := by
  constructor
  · have h := staticStringCompare_literalPair.1 0 (nameTok "strcmp") (opTok "(")
      (strTok "\"abc\"" "abc") (opTok ",") (strTok "\"xyz\"" "xyz") (opTok ")") []
      rfl (by decide) rfl rfl rfl rfl (Or.inr rfl)
    simpa using h
  · have h := staticStringCompare_literalPair.1 0 (nameTok "strcmp") (opTok "(")
      (strTok "\"abc\"" "abc") (opTok ",") (strTok "\"abc\"" "abc") (opTok ")") []
      rfl (by decide) rfl rfl rfl rfl (Or.inr rfl)
    simpa using h

/-! ## Claim C5 -/

/-- Counterexample to C5: four of the seven detectors fire on matching
input with the "warning" category disabled, so at most three detectors are
gated on it (the claim asserts at least four). -/
theorem warningGate_fourDetectors_cex :
    stringLiteralWrite ⟨false⟩ [slwDemoScope] ≠ [] ∧
    strPlusChar ⟨false⟩ [spcDemoScope] ≠ some [] ∧
    strPlusInteger ⟨false⟩ [spiDemoScope] ≠ [] ∧
    sprintfOverlappingData ⟨false⟩ [c2Demo] ≠ [] := by decide

/-- C5 (amended): exactly three of the seven detectors —
`checkAlwaysTrueOrFalseStringCompare`, `checkSuspiciousStringCompare` and
`checkIncorrectStringCompare` — are gated on the "warning" category and
emit nothing when it is disabled, regardless of input; the other four
detectors are not gated and can emit with the category disabled. -/
theorem warningGate_amended :
    (∀ toks : List Tok, checkAlwaysTrueOrFalseStringCompare ⟨false⟩ toks = []) ∧
    (∀ (isC : Bool) (scopes : List (List ATree)),
      checkSuspiciousStringCompare ⟨false⟩ isC scopes = []) ∧
    (∀ scopes : List (List Tok), checkIncorrectStringCompare ⟨false⟩ scopes = []) ∧
    stringLiteralWrite ⟨false⟩ [slwDemoScope] = [stringLiteralWriteError "hello"] ∧
    strPlusChar ⟨false⟩ [spcDemoScope] = some [strPlusCharError] ∧
    strPlusInteger ⟨false⟩ [spiDemoScope] = [strPlusIntegerError] ∧
    sprintfOverlappingData ⟨false⟩ [c2Demo] = [sprintfOverlappingDataError "buf"] :=
  ⟨fun _ => rfl, fun _ _ => rfl, fun _ => rfl,
   by decide, by decide, by decide, by decide⟩

/-! ## Claim C4 -/

/-- Counterexample to C4: a translation unit with no function scopes at
all on which the checker still emits a diagnostic —
`checkAlwaysTrueOrFalseStringCompare` scans the whole token list, not the
function scopes, so the finding originates from tokens outside every
function scope. -/
theorem scopeBoundary_claim_cex :
    c4TU.tokScopes = [] ∧ c4TU.astScopes = [] ∧
    runAllChecks ⟨true⟩ true c4TU
      = some [alwaysTrueFalseStringCompareError "\"a\"" "\"a\""] :=
  ⟨rfl, rfl, by decide⟩

/-- C4 (amended): the six scope-based detectors inspect only scope bodies
and produce nothing (without crashing) when every scope body is empty;
`checkAlwaysTrueOrFalseStringCompare`, however, scans the entire token
list and can emit findings from tokens outside any function scope. -/
theorem scopeBoundary_amended :
    (∀ (s : Settings) (isC : Bool) (tscopes : List (List Tok))
        (ascopes : List (List ATree)),
      (∀ x ∈ tscopes, x = []) → (∀ y ∈ ascopes, y = []) →
      stringLiteralWrite s tscopes = [] ∧
      checkIncorrectStringCompare s tscopes = [] ∧
      sprintfOverlappingData s tscopes = [] ∧
      checkSuspiciousStringCompare s isC ascopes = [] ∧
      strPlusChar s ascopes = some [] ∧
      strPlusInteger s ascopes = []) ∧
    (c4TU.tokScopes = [] ∧ c4TU.astScopes = [] ∧
      runAllChecks ⟨true⟩ true c4TU
        = some [alwaysTrueFalseStringCompareError "\"a\"" "\"a\""]) := by
  refine ⟨?_, rfl, rfl, by decide⟩
  intro s isC tscopes ascopes ht ha
  refine ⟨?_, ?_, ?_, ?_, strPlusChar_nilScopes s ascopes ha, ?_⟩
  · exact flatten_map_nil _ rfl tscopes ht
  · unfold checkIncorrectStringCompare
    split
    · rfl
    · exact flatten_map_nil _ rfl tscopes ht
  · exact flatten_map_nil _ rfl tscopes ht
  · unfold checkSuspiciousStringCompare
    split
    · rfl
    · exact flatten_map_nil _ rfl ascopes ha
  · exact flatten_map_nil _ rfl ascopes ha

/-- Witness for C4 (amended) at a unit whose only scopes are empty. -/
theorem scopeBoundary_amended_wit :
    stringLiteralWrite ⟨true⟩ [[]] = [] ∧
    checkIncorrectStringCompare ⟨true⟩ [[]] = [] ∧
    sprintfOverlappingData ⟨true⟩ [[]] = [] ∧
    checkSuspiciousStringCompare ⟨true⟩ true [[]] = [] ∧
    strPlusChar ⟨true⟩ [[]] = some [] ∧
    strPlusInteger ⟨true⟩ [[]] = [] := by
  have h := scopeBoundary_amended.1 ⟨true⟩ true [[]] [[]]
    (by intro x hx; simp at hx; exact hx)
    (by intro y hy; simp at hy; exact hy)
  exact h

/-! ## Claim C1 -/

/-- Counterexample to C1: the code does the opposite of the claim.  On
`*p == '\0'` with `p` pointer-typed (in C and C++ mode alike) the detector
emits nothing — the `*` special case requires the literal side to be a
string literal, and `'\0'` is a number with `originalName` `'\0'` — while
on `p == '\0'` without the dereference it emits the dereference-suggestion
warning `charLiteralWithCharPtrCompare`. -/
theorem suspNullCharClaim_cex :
    suspNode true derefCmpDemo = none ∧
    suspNode false derefCmpDemo = none ∧
    suspNode true plainCmpDemo = some (suspiciousStringCompareError_char "p") ∧
    suspNode false plainCmpDemo = some (suspiciousStringCompareError_char "p") := by
  decide

/-- C1 (amended): for a comparison whose operands are a pointer-typed
variable `p` (not dereferenced) and the null-character literal `'\0'`,
the detector emits the dereference-suggestion warning
(`charLiteralWithCharPtrCompare`); for a comparison `*p == '\0'` whose
expression side is a unary `*` node it emits nothing under this check, in
either language mode. -/
theorem suspNullCharCompare_amended :
    (∀ (isC : Bool) (cmp p lit : Tok) (pa pb la lb : Option ATree) (v : Var),
      cmp.tokType = TokType.eComparisonOp →
      p.tokType = TokType.eVariable →
      p.str ≠ "+" → p.str ≠ "*" → p.str ≠ "." → p.str ≠ "::" →
      p.varInfo = some v → v.isPointer = true →
      lit.tokType = TokType.eNumber → lit.originalName = "\x27\\0\x27" →
      suspNode isC
        (ATree.node cmp (some (ATree.node p pa pb)) (some (ATree.node lit la lb)))
        = some (suspiciousStringCompareError_char p.str)) ∧
    (∀ (isC : Bool) (cmp star lit : Tok) (inner rl la lb : Option ATree),
      cmp.tokType = TokType.eComparisonOp →
      star.str = "*" → isLit star = false →
      lit.tokType = TokType.eNumber →
      suspNode isC
        (ATree.node cmp (some (ATree.node star inner rl)) (some (ATree.node lit la lb)))
        = none) := by
  constructor
  · intro isC cmp p lit pa pb la lb v hcmp hp hplus hstar hdot hcolon hvi hptr hnum horig
    simp [suspNode, suspCore, suspTail, dotDesc_stop p pa pb hdot hcolon,
      isLit, Tok.isName, ATree.tok, ATree.op1, ATree.op2, hcmp, hp, hplus,
      hstar, hvi, hptr, hnum, horig]
  · intro isC cmp star lit inner rl la lb hcmp hstar hlit hnum
    simp [suspNode, suspCore, isLit, ATree.tok, ATree.op1, ATree.op2,
      hcmp, hstar, hnum] at hlit ⊢
    simp [hlit]

/-- Witness for C1 (amended) at the concrete `p == '\0'` and `*p == '\0'`
nodes. -/
theorem suspNullCharCompare_amended_wit :
    suspNode true
      (ATree.node cmpEqTok (some (ATree.node pPtrTok none none))
        (some (ATree.node nulTok none none)))
      = some (suspiciousStringCompareError_char "p") ∧
    suspNode true
      (ATree.node cmpEqTok
        (some (ATree.node starTok (some (ATree.node pPtrTok none none)) none))
        (some (ATree.node nulTok none none)))
      = none := by
  constructor
  · have h := suspNullCharCompare_amended.1 true cmpEqTok pPtrTok nulTok
      none none none none charPtrVar rfl rfl (by decide) (by decide)
      (by decide) (by decide) rfl rfl rfl rfl
    exact h
  · have h := suspNullCharCompare_amended.2 true cmpEqTok starTok nulTok
      (some (ATree.node pPtrTok none none)) none none none rfl rfl
      (by decide) rfl
    exact h

/-! ## Claim C9 -/

/-- Counterexample to C9: a `+` node whose left operand is a non-array
`char *` variable and whose right operand is a character *literal* emits
nothing — the left-variable branch only accepts a plain-`char` *variable*
right operand (`isChar(tok->astOperand2()->variable())`, and a literal has
no resolved variable). -/
theorem strPlusChar_charLiteral_cex :
    strPlusCharNode c9LitDemo = some [] ∧
    strPlusCharNode c9VarDemo = some [strPlusCharError] := by decide

/-- C9 (amended): for a `+` node whose left operand is a character-typed
pointer variable (pointer to undecorated `char`, not an array), a
`strPlusChar` warning is emitted when the right operand is a plain
undecorated-`char` variable; a character-literal right operand (which has
no resolved variable) is not flagged in this shape. -/
theorem strPlusChar_leftVariable_amended :
    (∀ (plus p b : Tok) (pa pb ba bb : Option ATree) (v w : Var),
      plus.str = "+" →
      p.tokType = TokType.eVariable → p.varInfo = some v →
      v.isPointer = true → v.isArray = false → v.typeStartStr = "char" →
      b.varInfo = some w → w.isPointer = false → w.isArray = false →
      w.typeStartStr = "char" → w.typeStartOriginalName = "" →
      strPlusCharNode
        (ATree.node plus (some (ATree.node p pa pb)) (some (ATree.node b ba bb)))
        = some [strPlusCharError]) ∧
    (∀ (plus p b : Tok) (pa pb ba bb : Option ATree) (v : Var),
      plus.str = "+" →
      p.tokType = TokType.eVariable → p.varInfo = some v →
      v.isPointer = true → v.isArray = false → v.typeStartStr = "char" →
      b.tokType = TokType.eChar → b.varInfo = none →
      strPlusCharNode
        (ATree.node plus (some (ATree.node p pa pb)) (some (ATree.node b ba bb)))
        = some []) := by
  constructor
  · intro plus p b pa pb ba bb v w hplus hp hvi hvp hva hvt hwi hwp hwa hwt hwo
    simp [strPlusCharNode, isChar, ATree.tok, ATree.op1, ATree.op2,
      hplus, hp, hvi, hvp, hva, hvt, hwi, hwp, hwa, hwt, hwo]
  · intro plus p b pa pb ba bb v hplus hp hvi hvp hva hvt hb hbv
    simp [strPlusCharNode, isChar, ATree.tok, ATree.op1, ATree.op2,
      hplus, hp, hvi, hvp, hva, hvt, hb, hbv]

/-- Witness for C9 (amended) at `p + c` and `p + 'c'`. -/
theorem strPlusChar_leftVariable_amended_wit :
    strPlusCharNode
      (ATree.node plusTok (some (ATree.node pPtrTok none none))
        (some (ATree.node charVarTok none none)))
      = some [strPlusCharError] ∧
    strPlusCharNode
      (ATree.node plusTok (some (ATree.node pPtrTok none none))
        (some (ATree.node charLitTok none none)))
      = some [] := by
  constructor
  · exact strPlusChar_leftVariable_amended.1 plusTok pPtrTok charVarTok
      none none none none charPtrVar charVar rfl rfl rfl rfl rfl rfl rfl rfl
      rfl rfl rfl
  · exact strPlusChar_leftVariable_amended.2 plusTok pPtrTok charLitTok
      none none none none charPtrVar rfl rfl rfl rfl rfl rfl rfl rfl

/-! ## Claim C3 -/

/-- C3 is a code bug: the claim (and §7 of the spec) promises that a node
lacking an expected operand is silently skipped, and the source does guard
the comparison detector (`if (!varTok || !litTok) continue`) and the
string-literal branch of `strPlusChar` — but the left-variable branch of
`strPlusChar` evaluates `isChar(tok->astOperand2()->variable())` without a
null check, so a `+` node with a non-array `char *` variable left operand
and a missing right operand dereferences a null pointer (modelled as
`none`).  The other conjuncts show the properly guarded cases. -/
theorem strPlusChar_missingOperand_crash :
    strPlusCharNode c3CrashDemo = none ∧
    strPlusChar ⟨true⟩ [[c3CrashDemo]] = none ∧
    suspNode true (ATree.node cmpEqTok none none) = none ∧
    suspNode true (ATree.node cmpEqTok (some strLitNode) none) = none ∧
    strPlusIntegerNode (ATree.node plusTok (some strLitNode) none) = [] ∧
    strPlusCharNode (ATree.node plusTok (some strLitNode) none) = some [] := by
  decide

/-! ## Claim C2 -/

/-- Counterexample to C2: on `sprintf ( buf , buf )` the detector fires —
its scan starts *at* the format-string argument, which here is the
destination buffer itself — while the claim's description of the scan
("begins at the first variadic argument, the format-string argument is
skipped"), modelled verbatim by `sodSpecScan`, predicts no finding (there
is no variadic argument at all). -/
theorem sprintfOverlapScanStart_cex :
    sodScan c2Demo = [sprintfOverlappingDataError "buf"] ∧
    sodSpecScan c2Demo = [] ∧
    sprintfOverlappingData ⟨true⟩ [c2Demo] = [sprintfOverlappingDataError "buf"] := by
  decide

/-- C2 (amended): for `sprintf|snprintf|swprintf` calls with a captured
destination (`%var%` or `%name% . %var%`), the overlap scan begins at the
*format-string* argument — for plain `sprintf` that is the argument right
after the destination's comma, for the `n`-variants the length argument is
skipped first — and a diagnostic fires on the first subsequent bare
argument token whose variable id equals the destination's and which is
immediately followed by `,` or `)`; `snprintf(buf, 9, "%s", buf)` yields
exactly one finding on the second `buf` and `sprintf(buf, "%s", other)`
yields none. -/
theorem sprintfOverlapScan_amended :
    (∀ (f lp v c : Tok) (rest : List Tok),
      f.str = "sprintf" → lp.str = "(" → v.varId ≠ 0 → plainArgTok v →
      c.str = "," →
      sodAt (f :: lp :: v :: c :: rest)
        = sodLoopF (rest.length + 1) v.varId rest) ∧
    (∀ (f lp v c : Tok) (rest : List Tok),
      (f.str = "snprintf" ∨ f.str = "swprintf") → lp.str = "(" →
      v.varId ≠ 0 → plainArgTok v → c.str = "," →
      sodAt (f :: lp :: v :: c :: rest)
        = (nextArgAux 0 rest).elim []
            (fun t3 => sodLoopF (t3.length + 1) v.varId t3)) ∧
    (∀ (f lp nm dot v2 c2 : Tok) (rest : List Tok),
      f.str = "sprintf" → lp.str = "(" → nm.isName = true → plainArgTok nm →
      dot.str = "." → v2.varId ≠ 0 → plainArgTok v2 → c2.str = "," →
      sodAt (f :: lp :: nm :: dot :: v2 :: c2 :: rest)
        = sodLoopF (rest.length + 1) v2.varId rest) ∧
    (∀ (n varid : Nat) (t u : Tok) (r : List Tok),
      t.varId = varid → (u.str = "," ∨ u.str = ")") →
      sodLoopF (n + 1) varid (t :: u :: r)
        = [sprintfOverlappingDataError t.str]) ∧
    (sodScan snprintfDemo = [sprintfOverlappingDataError "buf"] ∧
     sodScan sprintfOtherDemo = [] ∧
     sprintfOverlappingData ⟨true⟩ [snprintfDemo]
       = [sprintfOverlappingDataError "buf"]) :=
  ⟨sodAt_sprintf_dest, sodAt_nvariant_dest,
   fun f lp nm dot v2 c2 rest hf hlp hn hnp hdot hv hvp hc =>
     sodAt_member_dest f lp nm dot v2 c2 rest hf hlp hn hnp hdot hv hvp hc,
   sodLoopF_hit, by decide, by decide, by decide⟩

/-- Witness for C2 (amended) on the concrete `sprintf ( buf , buf )`
tokens and the loop-hit shape. -/
theorem sprintfOverlapScan_amended_wit :
    sodAt [nameTok "sprintf", opTok "(", bufTok, opTok ",", bufTok, opTok ")"]
      = sodLoopF 3 1 [bufTok, opTok ")"] ∧
    sodLoopF 1 1 [bufTok, opTok ")"] = [sprintfOverlappingDataError "buf"] := by
  constructor
  · have h := sprintfOverlapScan_amended.1 (nameTok "sprintf") (opTok "(")
      bufTok (opTok ",") [bufTok, opTok ")"] rfl rfl (by decide) (by decide) rfl
    exact h
  · have h := sprintfOverlapScan_amended.2.2.2.1 0 1 bufTok (opTok ")") []
      rfl (Or.inr rfl)
    exact h

/-! ## Claim C7 -/

/-- C7: a `. substr ( pos , len )` call with a literal-number length
compared with `==`/`!=` against a string literal on either side yields the
`incorrectStringCompare` warning naming the literal exactly when the
literal's known length differs from `len`, and no finding when they are
equal (per scan position; the comparison must not take part in a `+`
concatenation, which is claim C10's separate exclusion).  The concrete
conjuncts run the whole gated detector on `"xy" == s.substr(0,3)` and
`"xyz" == s.substr(0,3)`. -/
theorem substrLengthMismatch :
    (∀ (sTok eq lit : Tok) (before : List Tok)
        (dot sub lp pos cm num rp : Tok) (after : List Tok),
      closerPair sTok.str = none →
      (eq.str = "==" ∨ eq.str = "!=") → lit.tokType = TokType.eString →
      hdStr before ≠ "+" →
      dot.str = "." → sub.str = "substr" → lp.str = "(" →
      plainArgTok pos → cm.str = "," →
      num.tokType = TokType.eNumber → plainArgTok num → rp.str = ")" →
      icsFind (sTok :: eq :: lit :: before)
          (dot :: sub :: lp :: pos :: cm :: num :: rp :: after)
        = (if num.numValue ≠ (lit.strValue.length : Int) then
            [incorrectStringCompareError "substr" lit.str] else [])) ∧
    (∀ (sTok : Tok) (dot sub lp pos cm num rp eqT lit2 : Tok)
        (after2 : List Tok),
      closerPair sTok.str = none →
      dot.str = "." → sub.str = "substr" → lp.str = "(" →
      plainArgTok pos → cm.str = "," →
      num.tokType = TokType.eNumber → plainArgTok num → rp.str = ")" →
      (eqT.str = "==" ∨ eqT.str = "!=") → lit2.tokType = TokType.eString →
      hdStr after2 ≠ "+" →
      icsFind [sTok]
          (dot :: sub :: lp :: pos :: cm :: num :: rp :: eqT :: lit2 :: after2)
        = (if num.numValue ≠ (lit2.strValue.length : Int) then
            [incorrectStringCompareError "substr" lit2.str] else [])) ∧
    (checkIncorrectStringCompare ⟨true⟩
        [[strTok "\"xy\"" "xy", cmpEqTok, sVarTok] ++ substrCurDemo]
      = [incorrectStringCompareError "substr" "\"xy\""] ∧
     checkIncorrectStringCompare ⟨true⟩
        [[strTok "\"xyz\"" "xyz", cmpEqTok, sVarTok] ++ substrCurDemo]
      = []) :=
  ⟨icsFind_substr_left, icsFind_substr_right, by decide, by decide⟩

/-- Witness for C7 at `"xy" == s . substr ( 0 , 3 )` (mismatch: fires) and
`"xyz" == s . substr ( 0 , 3 )` (equal: silent). -/
theorem substrLengthMismatch_wit :
    icsFind [sVarTok, cmpEqTok, strTok "\"xy\"" "xy", lbraceTok]
        [opTok ".", nameTok "substr", opTok "(", numTok "0" 0, opTok ",",
         numTok "3" 3, opTok ")"]
      = [incorrectStringCompareError "substr" "\"xy\""] ∧
    icsFind [sVarTok, cmpEqTok, strTok "\"xyz\"" "xyz", lbraceTok]
        [opTok ".", nameTok "substr", opTok "(", numTok "0" 0, opTok ",",
         numTok "3" 3, opTok ")"]
      = [] := by
  constructor
  · have h := substrLengthMismatch.1 sVarTok cmpEqTok (strTok "\"xy\"" "xy")
      [lbraceTok] (opTok ".") (nameTok "substr") (opTok "(") (numTok "0" 0)
      (opTok ",") (numTok "3" 3) (opTok ")") [] (by decide) (Or.inl rfl) rfl
      (by decide) rfl rfl rfl (by decide) rfl rfl (by decide) rfl
    simpa using h
  · have h := substrLengthMismatch.1 sVarTok cmpEqTok (strTok "\"xyz\"" "xyz")
      [lbraceTok] (opTok ".") (nameTok "substr") (opTok "(") (numTok "0" 0)
      (opTok ",") (numTok "3" 3) (opTok ")") [] (by decide) (Or.inl rfl) rfl
      (by decide) rfl rfl rfl (by decide) rfl rfl (by decide) rfl
    simpa using h

/-! ## Claim C10 -/

/-- C10: the `substr` length-mismatch check is suppressed when the
compared string literal takes part in an adjacent `+` concatenation: a `+`
directly before a left-side literal, or directly after a right-side one,
yields no `incorrectStringCompare` finding whatever the lengths.  The
concrete conjuncts run the gated detector on
`"xy" + … == s.substr(0,3)`-style token lists. -/
theorem substrCompare_plusSuppression :
    (∀ (sTok eq lit plus : Tok) (before : List Tok)
        (dot sub lp pos cm num rp : Tok) (after : List Tok),
      closerPair sTok.str = none →
      (eq.str = "==" ∨ eq.str = "!=") → lit.tokType = TokType.eString →
      plus.str = "+" →
      dot.str = "." → sub.str = "substr" → lp.str = "(" →
      plainArgTok pos → cm.str = "," →
      num.tokType = TokType.eNumber → plainArgTok num → rp.str = ")" →
      hdStr after ≠ "==" → hdStr after ≠ "!=" →
      icsFind (sTok :: eq :: lit :: plus :: before)
          (dot :: sub :: lp :: pos :: cm :: num :: rp :: after)
        = []) ∧
    (∀ (sTok : Tok) (dot sub lp pos cm num rp eqT lit2 plus : Tok)
        (after3 : List Tok),
      closerPair sTok.str = none →
      dot.str = "." → sub.str = "substr" → lp.str = "(" →
      plainArgTok pos → cm.str = "," →
      num.tokType = TokType.eNumber → plainArgTok num → rp.str = ")" →
      (eqT.str = "==" ∨ eqT.str = "!=") → lit2.tokType = TokType.eString →
      plus.str = "+" →
      icsFind [sTok]
          (dot :: sub :: lp :: pos :: cm :: num :: rp :: eqT :: lit2 :: plus :: after3)
        = []) ∧
    (checkIncorrectStringCompare ⟨true⟩
        [[strTok "\"xy\"" "xy", plusTok, opTok "x", cmpEqTok, sVarTok]
          ++ substrCurDemo]
      = [] ∧
     checkIncorrectStringCompare ⟨true⟩
        [[sVarTok] ++ substrCurDemo
          ++ [cmpEqTok, strTok "\"xy\"" "xy", plusTok, opTok "x"]]
      = []) := by
  refine ⟨?_, ?_, by decide, by decide⟩
  · intro sTok eq lit plus before dot sub lp pos cm num rp after
      hs heq hlit hplus hdot hsub hlp hpos hcm hnum hnump hrp haft1 haft2
    exact icsFind_substr_left_plus sTok eq lit plus before dot sub lp pos cm
      num rp after hs heq hlit hplus hdot hsub hlp hpos hcm hnum hnump hrp
      haft1 haft2
  · intro sTok dot sub lp pos cm num rp eqT lit2 plus after3
      hs hdot hsub hlp hpos hcm hnum hnump hrp heq hlit hplus
    exact icsFind_substr_right_plus sTok dot sub lp pos cm num rp eqT lit2
      plus after3 hs hdot hsub hlp hpos hcm hnum hnump hrp heq hlit hplus

/-- Witness for C10 at `+ "xy" == s . substr ( 0 , 3 )` (left) and
`s . substr ( 0 , 3 ) == "xy" +` (right): suppressed although the lengths
differ. -/
theorem substrCompare_plusSuppression_wit :
    icsFind [sVarTok, cmpEqTok, strTok "\"xy\"" "xy", plusTok, lbraceTok]
        [opTok ".", nameTok "substr", opTok "(", numTok "0" 0, opTok ",",
         numTok "3" 3, opTok ")"]
      = [] ∧
    icsFind [sVarTok]
        [opTok ".", nameTok "substr", opTok "(", numTok "0" 0, opTok ",",
         numTok "3" 3, opTok ")", cmpEqTok, strTok "\"xy\"" "xy", plusTok]
      = [] := by
  constructor
  · exact substrCompare_plusSuppression.1 sVarTok cmpEqTok
      (strTok "\"xy\"" "xy") plusTok [lbraceTok] (opTok ".") (nameTok "substr")
      (opTok "(") (numTok "0" 0) (opTok ",") (numTok "3" 3) (opTok ")") []
      (by decide) (Or.inl rfl) rfl rfl rfl rfl rfl (by decide) rfl rfl
      (by decide) rfl (by decide) (by decide)
  · exact substrCompare_plusSuppression.2.1 sVarTok (opTok ".")
      (nameTok "substr") (opTok "(") (numTok "0" 0) (opTok ",") (numTok "3" 3)
      (opTok ")") cmpEqTok (strTok "\"xy\"" "xy") plusTok []
      (by decide) rfl rfl rfl (by decide) rfl rfl (by decide) rfl
      (Or.inl rfl) rfl rfl

end CheckString
